import Mathlib

/-!
# Verification of `nwis_data_extractor.py`

Shallow embedding of the three components of the repository
(`build_url`, `get_nwis_data`, `gsheets_write`) and proofs about them.

Conventions of the embedding:
* Python keyword-argument dicts become ordered association lists
  `List (String × PyVal)` (Python 3.7+ dicts preserve insertion order,
  and keyword arguments have distinct keys).
* A Python value that `build_url` treats as a collection is either a
  string (iteration yields its characters) or a list of scalars,
  modelled after stringification as a list of strings.
* Machine floats produced by Python `float(...)` are modelled as
  rationals via a decimal-literal parser `pyFloat`; a string the parser
  rejects models a `ValueError` (the model covers plain decimal
  literals, which is all the claims exercise).
* Fallible extraction (`IndexError` on `[0]`/`[1]`, `ValueError` from
  `float`) is modelled in the `Option` monad: `none` is an exception
  aborting the whole call.
-/

namespace Nwis

/-- A Python value appearing as a keyword-argument value of `build_url`:
either a string or a list of (already stringified) scalars. -/
inductive PyVal
  | str : String → PyVal
  | list : List String → PyVal
deriving DecidableEq, Repr

/-- Python `len(value)`: the number of characters of a string, or the
number of elements of a list. -/
def pyLen : PyVal → Nat
  | .str s => s.length
  | .list l => l.length

/-- Python `repr` of a string as it appears inside `str(<list>)`
(quotes around the text; escape sequences do not arise in the inputs
considered here). -/
def pyReprStr (s : String) : String := "'" ++ s ++ "'"

/-- Python `str(value)`: a string stringifies to itself, a list to its
bracketed, comma-space separated representation with repr-quoted
elements (e.g. `str(['a', 'b'])`). -/
def pyStr : PyVal → String
  | .str s => s
  | .list l => "[" ++ String.intercalate ", " (l.map pyReprStr) ++ "]"

/-- The elements produced by `for val in value`, each already passed
through `str(val)`: the characters of a string (as one-character
strings), or the elements of a list. -/
def pyElems : PyVal → List String
  | .str s => s.data.map (fun c => String.mk [c])
  | .list l => l

/-- Python equality test between the string `'dv'` and a `(key, value)`
pair of `kwargs.items()`.  In Python a `str` never equals a tuple, so
this heterogeneous comparison is `False` for every pair. -/
def pyEqStrPair (_s : String) (_kv : String × PyVal) : Bool := false

/-- Python `'dv' in kwargs.items()`: membership of the string among the
key–value pairs, i.e. `any` of the pairwise equality tests. -/
def pyInItems (s : String) (kwargs : List (String × PyVal)) : Bool :=
  kwargs.any (pyEqStrPair s)

/-- Python `values[:-1]` on a string: drop the last character (the empty
string stays empty). -/
def strDropLast (s : String) : String := String.mk s.data.dropLast

/-- The daily-values base endpoint of the source. -/
def dvBase : String := "http://waterservices.usgs.gov/nwis/dv/?format=json&siteStatus=all"

/-- The instantaneous-values base endpoint of the source. -/
def ivBase : String := "http://waterservices.usgs.gov/nwis/iv/?format=json&siteStatus=all"

/-- Embedding of `build_url(**kwargs)`:

```python
if 'dv' in kwargs.items():
    url = 'http://waterservices.usgs.gov/nwis/dv/?format=json&siteStatus=all'
else:
    url = 'http://waterservices.usgs.gov/nwis/iv/?format=json&siteStatus=all'
for key, value in kwargs.items():
    if len(value) == 1:
        url = url + '&' + str(key) + '=' + str(value)
    else:
        values = ''
        for val in value:
            values = values + str(val) + ','
        url = url + '&' + str(key) + '=' + values[:-1]
return url
```
-/
def build_url (kwargs : List (String × PyVal)) : String :=
  let url0 := if pyInItems "dv" kwargs then dvBase else ivBase
  kwargs.foldl (fun url kv =>
    if pyLen kv.2 = 1 then
      url ++ "&" ++ kv.1 ++ "=" ++ pyStr kv.2
    else
      let values := (pyElems kv.2).foldl (fun acc v => acc ++ v ++ ",") ""
      url ++ "&" ++ kv.1 ++ "=" ++ strDropLast values) url0

/-- Comma-joining of a list of strings, with no trailing comma:
`v1,v2,...,vN` (the empty string for the empty list). -/
def commaJoin : List String → String
  | [] => ""
  | [x] => x
  | x :: y :: ys => x ++ "," ++ commaJoin (y :: ys)

/-- The fragment `build_url` appends for one keyword argument. -/
def segment (kv : String × PyVal) : String :=
  if pyLen kv.2 = 1 then "&" ++ kv.1 ++ "=" ++ pyStr kv.2
  else "&" ++ kv.1 ++ "=" ++ commaJoin (pyElems kv.2)

/-- Concatenation of a list of strings (left to right, no separator). -/
def strJoin : List String → String
  | [] => ""
  | s :: rest => s ++ strJoin rest

lemma comma_fold_data (l : List String) (acc : String) :
    (l.foldl (fun a v => a ++ v ++ ",") acc).data
      = acc.data ++ (l.map (fun s => s.data ++ [','])).flatten := by
  induction l generalizing acc with
  | nil => simp
  | cons x xs ih =>
      simp only [List.foldl_cons, List.map_cons, List.flatten_cons]
      rw [ih]
      simp [String.data_append]

lemma commaJoin_data (l : List String) :
    (commaJoin l).data = (l.map (fun s => s.data ++ [','])).flatten.dropLast := by
  induction l with
  | nil => simp [commaJoin]
  | cons x xs ih =>
      cases xs with
      | nil => simp [commaJoin, String.data_append]
      | cons y ys =>
          show (x ++ "," ++ commaJoin (y :: ys)).data = _
          have hne : ((y :: ys).map (fun s => s.data ++ [','])).flatten ≠ [] := by
            simp
          rw [String.data_append, String.data_append, ih]
          rw [show (List.map (fun s => s.data ++ [',']) (x :: y :: ys)).flatten
                = (x.data ++ [',']) ++ (List.map (fun s => s.data ++ [',']) (y :: ys)).flatten
              from by simp]
          rw [List.dropLast_append_of_ne_nil _ hne]

lemma comma_fold_eq_commaJoin (l : List String) :
    strDropLast (l.foldl (fun a v => a ++ v ++ ",") "") = commaJoin l := by
  apply String.ext
  show (l.foldl (fun a v => a ++ v ++ ",") "").data.dropLast = _
  rw [comma_fold_data, commaJoin_data]
  simp

/-- `build_url` appends the serialized segments of the keyword arguments,
in order, to the chosen base URL. -/
lemma build_url_eq (kwargs : List (String × PyVal)) :
    build_url kwargs
      = (if pyInItems "dv" kwargs then dvBase else ivBase)
        ++ strJoin (kwargs.map segment) := by
  unfold build_url
  generalize (if pyInItems "dv" kwargs then dvBase else ivBase) = url0
  induction kwargs generalizing url0 with
  | nil =>
      apply String.ext
      simp [strJoin]
  | cons kv rest ih =>
      simp only [List.foldl_cons, List.map_cons]
      rw [ih]
      apply String.ext
      by_cases h : pyLen kv.2 = 1 <;>
        simp [h, segment, strJoin, String.data_append, comma_fold_eq_commaJoin]

example :
    build_url [("sites", PyVal.str "x"), ("parameterCd", PyVal.list ["00060", "00065"])]
      = "http://waterservices.usgs.gov/nwis/iv/?format=json&siteStatus=all&sites=x&parameterCd=00060,00065" := by
  decide

/-! ## Embedding of `get_nwis_data` -/

/-- One timestamped reading inside a value block:
`{'dateTime': ..., 'value': ...}` (the reading's value is a string in
the upstream JSON and is converted with `float`). -/
structure Reading where
  dateTime : String
  value : String
deriving DecidableEq, Repr

/-- One entry of `station['values']`: an object whose `value` field is
the list of readings. -/
structure ValueBlock where
  value : List Reading
deriving DecidableEq, Repr

/-- An entry of `siteCode`, `siteProperty` or `variableCode`: an object
whose `value` field is read. -/
structure CodeEntry where
  value : String
deriving DecidableEq, Repr

/-- `geoLocation.geogLocation`: latitude and longitude (JSON numbers,
modelled as rationals). -/
structure GeogLocation where
  latitude : ℚ
  longitude : ℚ
deriving DecidableEq, Repr

/-- `sourceInfo.geoLocation`. -/
structure GeoLocation where
  geogLocation : GeogLocation
deriving DecidableEq, Repr

/-- `station['sourceInfo']`. -/
structure SourceInfo where
  siteCode : List CodeEntry
  siteProperty : List CodeEntry
  geoLocation : GeoLocation
deriving DecidableEq, Repr

/-- `variable.unit`. -/
structure UnitInfo where
  unitCode : String
deriving DecidableEq, Repr

/-- `station['variable']`. -/
structure VariableInfo where
  variableName : String
  variableCode : List CodeEntry
  unit : UnitInfo
deriving DecidableEq, Repr

/-- One entry of `webdata['value']['timeSeries']` (`variable` is a Lean
keyword, so the source's field name `variable` is escaped). -/
structure Station where
  sourceInfo : SourceInfo
  «variable» : VariableInfo
  values : List ValueBlock
deriving DecidableEq, Repr

/-- `webdata['value']`. -/
structure WebValue where
  timeSeries : List Station
deriving DecidableEq, Repr

/-- The decoded JSON response body. -/
structure WebData where
  value : WebValue
deriving DecidableEq, Repr

/-- Numeric value of a list of decimal digit characters. -/
def digitsToNat (l : List Char) : Nat :=
  l.foldl (fun n c => 10 * n + (c.toNat - 48)) 0

/-- Python `float(s)` on the decimal literals that occur in NWIS value
fields: optional sign, integer digits, optional fractional part, at
least one digit overall.  `none` models the `ValueError` raised on a
non-numeric string.  (Exotic accepted spellings of Python floats —
exponents, `inf`, `nan`, underscores, surrounding whitespace — do not
occur in the data this system reads and are treated as non-numeric.) -/
def pyFloat (s : String) : Option ℚ :=
  let signed : Int × List Char :=
    match s.data with
    | '-' :: t => (-1, t)
    | '+' :: t => (1, t)
    | t => (1, t)
  let intPart := signed.2.takeWhile Char.isDigit
  let rest := signed.2.dropWhile Char.isDigit
  match rest with
  | [] =>
      if intPart.isEmpty then none
      else some (mkRat (signed.1 * digitsToNat intPart) 1)
  | '.' :: frac =>
      if frac.all Char.isDigit ∧ ¬(intPart.isEmpty ∧ frac.isEmpty) then
        some (mkRat
          (signed.1 * (digitsToNat intPart * 10 ^ frac.length + digitsToNat frac))
          (10 ^ frac.length))
      else none
  | _ => none

/-- `station['variable']['variableName'].split(',')`: Python `str.split`
on a single-character separator, at the level of character lists. -/
def pySplit (sep : Char) : List Char → List (List Char)
  | [] => [[]]
  | c :: cs =>
      if c = sep then [] :: pySplit sep cs
      else
        match pySplit sep cs with
        | [] => [[c]]
        | p :: ps => (c :: p) :: ps

/-- `variableName.split(',')[0]` as a function on strings (`split`
always returns a non-empty list, so index `0` never fails). -/
def varFirst (s : String) : String :=
  String.mk ((pySplit ',' s.data).headI)

/-- One row of the DataFrame built by `get_nwis_data` (the 9 detailed
columns, in source order). -/
structure Row where
  datetime_local : String
  site_id : String
  site_huc : String
  lat : ℚ
  lon : ℚ
  var : String
  var_code : String
  unit : String
  value : ℚ
deriving DecidableEq, Repr

/-- A row of the 2-column "simple" view: `data[['datetime_local','value']]`. -/
structure SimpleRow where
  datetime_local : String
  value : ℚ
deriving DecidableEq, Repr

/-- The projection of a detailed row onto the simple view's columns. -/
def toSimple (r : Row) : SimpleRow :=
  { datetime_local := r.datetime_local, value := r.value }

/-- The body of the extraction loop of `get_nwis_data`, for one station.
Each indexing step `[0]`/`[1]` is a fallible lookup (`IndexError`) and
the `float` conversion is fallible (`ValueError`); any failure aborts
the whole call, which the `Option` monad models.  The fields are read
in the order of the source's loop body. -/
def extractRow (station : Station) : Option Row := do
  let vb ← station.values.head?
  let r ← vb.value.head?
  let sc ← station.sourceInfo.siteCode.head?
  let sp ← station.sourceInfo.siteProperty.get? 1
  let vc ← station.«variable».variableCode.head?
  let v ← pyFloat r.value
  some { datetime_local := r.dateTime
         site_id := sc.value
         site_huc := sp.value
         lat := station.sourceInfo.geoLocation.geogLocation.latitude
         lon := station.sourceInfo.geoLocation.geogLocation.longitude
         var := varFirst station.«variable».variableName
         var_code := vc.value
         unit := station.«variable».unit.unitCode
         value := v }

/-- The two shapes `get_nwis_data` can return: the full 9-column frame
or the 2-column simple view. -/
inductive NwisFrame
  | detailed : List Row → NwisFrame
  | simple : List SimpleRow → NwisFrame
deriving DecidableEq, Repr

/-- The extraction loop of `get_nwis_data` over the whole time-series
collection, in source order: one row per entry, and an exception at any
entry aborts the call (`none` — the partially filled lists are never
turned into a DataFrame). -/
def extractRows : List Station → Option (List Row)
  | [] => some []
  | st :: rest =>
      match extractRow st, extractRows rest with
      | some r, some rs => some (r :: rs)
      | _, _ => none

/-- Embedding of `get_nwis_data(url_string, output)` after the HTTP
read and `json.loads` (the transport is outside the model: the function
consumes the decoded response). -/
def get_nwis_data (webdata : WebData) (output : String) : Option NwisFrame :=
  match extractRows webdata.value.timeSeries with
  | none => none
  | some rows =>
      some (if output = "simple" then .simple (rows.map toSimple) else .detailed rows)

/-! ## Embedding of `gsheets_write` -/

/-- A tabular dataset as `gsheets_write` consumes it: column names
(`data.columns.tolist()`) and rows (`data.values.tolist()`), cells in
their spreadsheet-serialized form. -/
structure Frame where
  columns : List String
  rows : List (List String)
deriving DecidableEq, Repr

/-- Python truthiness of an optional string argument: `None` and the
empty string are falsy, every other string is truthy. -/
def pyTruthy : Option String → Bool
  | none => false
  | some s => s ≠ ""

/-- The spreadsheet the happy path operates on: either
`gc.open(spreadsheet_title)` or
`gc.create('nwis_data_' + <timestamp>)` followed by
`sheet.share(email_address, perm_type='user', role='writer')`.
The create branch passes whatever `email_address` holds — possibly
`None` — to `share`, so the constructor carries the optional value.
(The timestamp in the new sheet's name reads the ambient clock and is
not part of the model.) -/
inductive SheetTarget
  | openExisting : String → SheetTarget
  | createShare : Option String → SheetTarget
deriving DecidableEq, Repr

/-- What a successful call writes: the target spreadsheet and the
`values` list of the append request body. -/
structure WriteOutcome where
  target : SheetTarget
  written : List (List String)
deriving DecidableEq, Repr

/-- Embedding of `gsheets_write(credentials, data, spreadsheet_title,
email_address)`:

```python
if spreadsheet_title is None and email_address is None:
    raise Exception('Enter an existing spreadsheet title or a valid email address.')
if spreadsheet_title and email_address:
    raise Exception('Enter only one of spreadsheet_title or email_address.')
...credential setup / authorize...
if spreadsheet_title:
    sheet = gc.open(spreadsheet_title)
else:
    sheet = gc.create('nwis_data_' + ...); sheet.share(email_address, ...)
export_data = data.values.tolist()
if email_address:
    export_data.insert(0, data.columns.tolist())
sheet.values_append('Sheet1', params=append_params, body={'values': export_data})
```

`Except.error` models the raised exception (raised before the
credential file is read and before any network call); `Except.ok`
carries the chosen target and the written rows.  The credentials
argument is only consumed by the external API and plays no further
role. -/
def gsheets_write (credentials : String) (data : Frame)
    (spreadsheet_title email_address : Option String) :
    Except String WriteOutcome :=
  if spreadsheet_title = none ∧ email_address = none then
    .error "Enter an existing spreadsheet title or a valid email address."
  else if pyTruthy spreadsheet_title ∧ pyTruthy email_address then
    .error "Enter only one of spreadsheet_title or email_address."
  else
    let target :=
      if pyTruthy spreadsheet_title then
        SheetTarget.openExisting (spreadsheet_title.getD "")
      else
        SheetTarget.createShare email_address
    let export_data := data.rows
    let export_data :=
      if pyTruthy email_address then data.columns :: export_data else export_data
    .ok { target := target, written := export_data }

/-! ## Concrete sample data

The synthetic single-time-series response of the specification's
example scenario, used to evaluate the theorems on concrete input. -/

/-- The one station of the synthetic response. -/
def sampleStation : Station :=
  { sourceInfo :=
      { siteCode := [⟨"01646500"⟩]
        siteProperty := [⟨"Maryland"⟩, ⟨"02070010"⟩]
        geoLocation := ⟨⟨mkRat 389 10, mkRat (-77) 1⟩⟩ }
    «variable» :=
      { variableName := "Discharge, cubic feet per second"
        variableCode := [⟨"00060"⟩]
        unit := ⟨"ft3/s"⟩ }
    values := [⟨[⟨"2023-01-01T00:00", "1500.0"⟩]⟩] }

/-- The synthetic response with exactly one time series. -/
def sampleWebData : WebData := ⟨⟨[sampleStation]⟩⟩

/-- The detailed row the synthetic response yields. -/
def sampleRow : Row :=
  { datetime_local := "2023-01-01T00:00"
    site_id := "01646500"
    site_huc := "02070010"
    lat := mkRat 389 10
    lon := mkRat (-77) 1
    var := "Discharge"
    var_code := "00060"
    unit := "ft3/s"
    value := 1500 }

/-- A station like `sampleStation` whose reading has the non-numeric
value field `"Ice"` (ice-affected gauges report such markers). -/
def icedStation : Station :=
  { sampleStation with values := [⟨[⟨"2023-01-01T00:00", "Ice"⟩]⟩] }

/-- A response containing a good entry followed by a non-numeric one. -/
def icedWebData : WebData := ⟨⟨[sampleStation, icedStation]⟩⟩

/-- A small dataset for exercising the publisher. -/
def sampleFrame : Frame :=
  { columns := ["datetime_local", "value"]
    rows := [["2023-01-01T00:00", "1500.0"], ["2023-01-01T00:15", "1498.0"]] }

example : extractRow sampleStation = some sampleRow := by decide

/-! ## Helper lemmas on the extraction loop -/

lemma extractRows_some :
    ∀ (l : List Station) (res : List Row), extractRows l = some res →
      res.length = l.length ∧
      ∀ i (h : i < l.length) (h' : i < res.length),
        extractRow (l.get ⟨i, h⟩) = some (res.get ⟨i, h'⟩) := by
  intro l
  induction l with
  | nil =>
      intro res hres
      simp only [extractRows, Option.some_inj] at hres
      subst hres
      exact ⟨rfl, fun i h => absurd h (Nat.not_lt_zero i)⟩
  | cons a l ih =>
      intro res hres
      unfold extractRows at hres
      cases ha : extractRow a with
      | none => rw [ha] at hres; cases hres
      | some b =>
          rw [ha] at hres
          cases hl : extractRows l with
          | none => rw [hl] at hres; cases hres
          | some bs =>
              rw [hl] at hres
              simp only [Option.some_inj] at hres
              subst hres
              obtain ⟨hlen, hget⟩ := ih bs hl
              refine ⟨by simp [hlen], ?_⟩
              intro i h h'
              cases i with
              | zero => simpa using ha
              | succ j =>
                  simpa using hget j (Nat.lt_of_succ_lt_succ h)
                    (Nat.lt_of_succ_lt_succ h')

lemma extractRows_none (st : Station) :
    ∀ (l : List Station), st ∈ l → extractRow st = none →
      extractRows l = none := by
  intro l
  induction l with
  | nil => intro h; cases h
  | cons x xs ih =>
      intro hmem ha
      unfold extractRows
      rcases List.mem_cons.mp hmem with rfl | hxs
      · rw [ha]
      · rw [ih hxs ha]
        cases extractRow x <;> rfl

/-! ## Claim theorems -/

lemma pyInItems_eq_false (s : String) (kwargs : List (String × PyVal)) :
    pyInItems s kwargs = false := by
  simp [pyInItems, pyEqStrPair]

lemma strJoin_append (a b : List String) :
    strJoin (a ++ b) = strJoin a ++ strJoin b := by
  induction a with
  | nil =>
      apply String.ext
      simp [strJoin]
  | cons x xs ih =>
      apply String.ext
      simp [strJoin, String.data_append, congrArg String.data ih]

/-- C1 (code bug): the daily-values marker has no effect.  The source
tests `'dv' in kwargs.items()`, comparing a string with key–value
tuples, which is false for every pair, so passing `data='dv'` still
yields a URL on the instantaneous-values endpoint (and, `'dv'` having
two characters, the kwarg itself is serialized as `&data=d,v`); in
fact every URL `build_url` returns starts with the
instantaneous-values base, contradicting the claim and the function's
own docstring. -/
theorem C1_daily_marker_has_no_effect :
    build_url [("data", PyVal.str "dv")]
      = "http://waterservices.usgs.gov/nwis/iv/?format=json&siteStatus=all&data=d,v"
    ∧ ∀ kwargs : List (String × PyVal), ∃ rest, build_url kwargs = ivBase ++ rest := by
  constructor
  · decide
  · intro kwargs
    refine ⟨strJoin (kwargs.map segment), ?_⟩
    rw [build_url_eq, pyInItems_eq_false]
    rfl

/-- C2 (counterexample): for the parameter mapping
`{'sites': ['01646500']}` — every entry a single-element collection —
the single element is not serialized as its own stringification
`01646500`: the source appends `str(value)` of the whole list, giving
`&sites=['01646500']`. -/
theorem C2_counterexample :
    build_url [("sites", PyVal.list ["01646500"])]
      = "http://waterservices.usgs.gov/nwis/iv/?format=json&siteStatus=all&sites=['01646500']"
    ∧ build_url [("sites", PyVal.list ["01646500"])]
      ≠ "http://waterservices.usgs.gov/nwis/iv/?format=json&siteStatus=all&sites=01646500" := by
  constructor
  · decide
  · decide

/-- C2 (amended): for every parameter mapping in which every entry's
value has length 1, the returned URL is the base URL followed by, for
each parameter in order, exactly one `&name=value` fragment — with no
trailing comma or separator — where `value` is the stringification
`str(value)` of the single-element collection itself (which equals the
stringification of the element exactly when the collection is a
one-character string). -/
theorem C2_single_valued_serialization (kwargs : List (String × PyVal))
    (h : ∀ kv ∈ kwargs, pyLen kv.2 = 1) :
    build_url kwargs
      = (if pyInItems "dv" kwargs then dvBase else ivBase)
        ++ strJoin (kwargs.map (fun kv => "&" ++ kv.1 ++ "=" ++ pyStr kv.2)) := by
  rw [build_url_eq]
  congr 1
  apply congrArg
  apply List.map_congr_left
  intro kv hkv
  simp [segment, h kv hkv]

/-- Witness for C2: a concrete single-valued mapping evaluated on both
sides of the amended statement. -/
theorem C2_single_valued_serialization_witness :
    (∀ kv ∈ [("sites", PyVal.str "x"), ("parameterCd", PyVal.list ["00060"])],
        pyLen kv.2 = 1)
    ∧ build_url [("sites", PyVal.str "x"), ("parameterCd", PyVal.list ["00060"])]
      = (if pyInItems "dv" [("sites", PyVal.str "x"), ("parameterCd", PyVal.list ["00060"])]
          then dvBase else ivBase)
        ++ strJoin ([("sites", PyVal.str "x"), ("parameterCd", PyVal.list ["00060"])].map
            (fun kv => "&" ++ kv.1 ++ "=" ++ pyStr kv.2)) :=
  ⟨by decide, C2_single_valued_serialization _ (by decide)⟩

/-- C3 (confirmed): a parameter whose value has `N ≥ 2` elements is
serialized inside the URL as `&name=v1,v2,...,vN`: the stringified
elements joined by commas with no trailing comma (`commaJoin`), and
the number of joined values is exactly the collection's length. -/
theorem C3_multi_valued_serialization (kwargs : List (String × PyVal))
    (k : String) (v : PyVal) (hmem : (k, v) ∈ kwargs) (hlen : 2 ≤ pyLen v) :
    (pyElems v).length = pyLen v
    ∧ ∃ s₁ s₂, build_url kwargs
        = s₁ ++ ("&" ++ k ++ "=" ++ commaJoin (pyElems v)) ++ s₂ := by
  constructor
  · cases v with
    | str s =>
        show (s.data.map _).length = s.length
        rw [List.length_map]
        rfl
    | list l => rfl
  · obtain ⟨l₁, l₂, rfl⟩ := List.append_of_mem hmem
    refine ⟨(if pyInItems "dv" (l₁ ++ (k, v) :: l₂) then dvBase else ivBase)
        ++ strJoin (l₁.map segment), strJoin (l₂.map segment), ?_⟩
    rw [build_url_eq, List.map_append, strJoin_append, List.map_cons]
    have hne1 : ¬ pyLen v = 1 := by omega
    have hseg : segment (k, v) = "&" ++ k ++ "=" ++ commaJoin (pyElems v) := by
      simp [segment, hne1]
    apply String.ext
    simp [strJoin, hseg, String.data_append]

/-- Witness for C3: a concrete mapping with a two-element parameter. -/
theorem C3_multi_valued_serialization_witness :
    (("parameterCd", PyVal.list ["00060", "00065"])
        ∈ [("sites", PyVal.str "x"), ("parameterCd", PyVal.list ["00060", "00065"])])
    ∧ 2 ≤ pyLen (PyVal.list ["00060", "00065"])
    ∧ ((pyElems (PyVal.list ["00060", "00065"])).length
          = pyLen (PyVal.list ["00060", "00065"])
        ∧ ∃ s₁ s₂,
            build_url [("sites", PyVal.str "x"),
              ("parameterCd", PyVal.list ["00060", "00065"])]
              = s₁ ++ ("&" ++ "parameterCd" ++ "="
                  ++ commaJoin (pyElems (PyVal.list ["00060", "00065"]))) ++ s₂) :=
  ⟨by decide, by decide,
    C3_multi_valued_serialization _ "parameterCd" (PyVal.list ["00060", "00065"])
      (by decide) (by decide)⟩

lemma extractRow_inv (st : Station) (row : Row) (h : extractRow st = some row) :
    ∃ vb r sc sp vc val,
      st.values.head? = some vb
      ∧ vb.value.head? = some r
      ∧ st.sourceInfo.siteCode.head? = some sc
      ∧ st.sourceInfo.siteProperty.get? 1 = some sp
      ∧ st.«variable».variableCode.head? = some vc
      ∧ pyFloat r.value = some val
      ∧ row = { datetime_local := r.dateTime
                site_id := sc.value
                site_huc := sp.value
                lat := st.sourceInfo.geoLocation.geogLocation.latitude
                lon := st.sourceInfo.geoLocation.geogLocation.longitude
                var := varFirst st.«variable».variableName
                var_code := vc.value
                unit := st.«variable».unit.unitCode
                value := val } := by
  simp only [extractRow, Option.bind_eq_bind, Option.bind_eq_some] at h
  obtain ⟨vb, hvb, r, hr, sc, hsc, sp, hsp, vc, hvc, val, hval, hrow⟩ := h
  exact ⟨vb, r, sc, sp, vc, val, hvb, hr, hsc, hsp, hvc, hval,
    (Option.some_inj.mp hrow).symm⟩

lemma extractRow_eq_none_of_bad_value (st : Station) (vb : ValueBlock)
    (r : Reading) (hvb : st.values.head? = some vb)
    (hr : vb.value.head? = some r) (hbad : pyFloat r.value = none) :
    extractRow st = none := by
  simp only [extractRow, Option.bind_eq_bind, hvb, hr, Option.some_bind]
  cases st.sourceInfo.siteCode.head? with
  | none => rfl
  | some sc =>
      cases st.sourceInfo.siteProperty.get? 1 with
      | none => rfl
      | some sp =>
          cases st.«variable».variableCode.head? with
          | none => rfl
          | some vc => simp [hbad]

lemma get_nwis_data_detailed_inv (wd : WebData) (rows : List Row)
    (h : get_nwis_data wd "detailed" = some (.detailed rows)) :
    extractRows wd.value.timeSeries = some rows := by
  unfold get_nwis_data at h
  cases hres : extractRows wd.value.timeSeries with
  | none => rw [hres] at h; cases h
  | some rows' =>
      rw [hres] at h
      have h2 : some (if ("detailed" : String) = "simple"
            then NwisFrame.simple (rows'.map toSimple)
            else NwisFrame.detailed rows') = some (NwisFrame.detailed rows) := h
      rw [if_neg (by decide : ¬("detailed" : String) = "simple")] at h2
      injection h2 with h2
      injection h2 with h2
      rw [h2]

/-- C4 (confirmed): if any entry of the response's time-series
collection has a first reading whose value field is non-numeric
(`float` raises), the whole `get_nwis_data` call fails — it returns
nothing at all, for either output mode: no partial dataset with the
rows preceding the bad entry, and no skipping of the bad row. -/
theorem C4_nonnumeric_value_fails_whole_call (wd : WebData) (output : String)
    (st : Station) (vb : ValueBlock) (r : Reading)
    (hst : st ∈ wd.value.timeSeries)
    (hvb : st.values.head? = some vb)
    (hr : vb.value.head? = some r)
    (hbad : pyFloat r.value = none) :
    get_nwis_data wd output = none := by
  have hrow := extractRow_eq_none_of_bad_value st vb r hvb hr hbad
  unfold get_nwis_data
  rw [extractRows_none st wd.value.timeSeries hst hrow]

/-- Witness for C4: a response whose second entry reads `"Ice"` — the
good first row is not returned either. -/
theorem C4_nonnumeric_value_fails_whole_call_witness :
    icedStation ∈ icedWebData.value.timeSeries
    ∧ icedStation.values.head? = some ⟨[⟨"2023-01-01T00:00", "Ice"⟩]⟩
    ∧ (⟨[⟨"2023-01-01T00:00", "Ice"⟩]⟩ : ValueBlock).value.head?
        = some ⟨"2023-01-01T00:00", "Ice"⟩
    ∧ pyFloat "Ice" = none
    ∧ get_nwis_data icedWebData "detailed" = none :=
  ⟨by decide, by decide, by decide, by decide,
    C4_nonnumeric_value_fails_whole_call icedWebData "detailed" icedStation
      ⟨[⟨"2023-01-01T00:00", "Ice"⟩]⟩ ⟨"2023-01-01T00:00", "Ice"⟩
      (by decide) (by decide) (by decide) (by decide)⟩

/-- C7 (confirmed): on any successfully parsed response, the "simple"
output is exactly the projection of the "detailed" output onto the
datetime and value columns: same number of rows, same order, and each
simple row's datetime and value equal those of the corresponding
detailed row (the detailed rows carry all 9 columns by construction of
`Row`). -/
theorem C7_simple_is_projection_of_detailed (wd : WebData) (rows : List Row)
    (h : get_nwis_data wd "detailed" = some (.detailed rows)) :
    get_nwis_data wd "simple" = some (.simple (rows.map toSimple))
    ∧ (rows.map toSimple).length = rows.length
    ∧ ∀ i (h₁ : i < rows.length) (h₂ : i < (rows.map toSimple).length),
        ((rows.map toSimple).get ⟨i, h₂⟩).datetime_local
            = (rows.get ⟨i, h₁⟩).datetime_local
        ∧ ((rows.map toSimple).get ⟨i, h₂⟩).value = (rows.get ⟨i, h₁⟩).value := by
  have hres := get_nwis_data_detailed_inv wd rows h
  refine ⟨?_, by simp, ?_⟩
  · unfold get_nwis_data
    rw [hres]
    rfl
  · intro i h₁ h₂
    simp [toSimple]

/-- Witness for C7: the synthetic one-series response. -/
theorem C7_simple_is_projection_of_detailed_witness :
    get_nwis_data sampleWebData "detailed" = some (.detailed [sampleRow])
    ∧ get_nwis_data sampleWebData "simple"
        = some (.simple ([sampleRow].map toSimple)) :=
  ⟨by decide,
    (C7_simple_is_projection_of_detailed sampleWebData [sampleRow] (by decide)).1⟩

/-- C8 (confirmed): a successfully parsed response yields exactly one
row per time-series entry, in the order of the entries, and the `i`-th
row's datetime and value are taken from the first timestamp/value pair
of the `i`-th entry's first value block (the value via the `float`
conversion) — readings beyond the first are never consulted and no
aggregation happens. -/
theorem C8_one_row_per_entry_from_first_reading (wd : WebData) (rows : List Row)
    (h : get_nwis_data wd "detailed" = some (.detailed rows)) :
    rows.length = wd.value.timeSeries.length
    ∧ ∀ i (hi : i < wd.value.timeSeries.length) (hi' : i < rows.length),
        ∃ vb r,
          (wd.value.timeSeries.get ⟨i, hi⟩).values.head? = some vb
          ∧ vb.value.head? = some r
          ∧ (rows.get ⟨i, hi'⟩).datetime_local = r.dateTime
          ∧ pyFloat r.value = some ((rows.get ⟨i, hi'⟩).value) := by
  have hres := get_nwis_data_detailed_inv wd rows h
  obtain ⟨hlen, hget⟩ := extractRows_some wd.value.timeSeries rows hres
  refine ⟨hlen, ?_⟩
  intro i hi hi'
  obtain ⟨vb, r, sc, sp, vc, val, hvb, hr, _, _, _, hval, hrow⟩ :=
    extractRow_inv _ _ (hget i hi hi')
  exact ⟨vb, r, hvb, hr, by rw [hrow], by rw [hrow]; exact hval⟩

/-- Witness for C8: the synthetic one-series response, whose single
series has one value block with one reading. -/
theorem C8_one_row_per_entry_from_first_reading_witness :
    get_nwis_data sampleWebData "detailed" = some (.detailed [sampleRow])
    ∧ [sampleRow].length = sampleWebData.value.timeSeries.length :=
  ⟨by decide,
    (C8_one_row_per_entry_from_first_reading sampleWebData [sampleRow]
      (by decide)).1⟩

lemma pySplit_ne_nil (sep : Char) (l : List Char) : pySplit sep l ≠ [] := by
  cases l with
  | nil => simp [pySplit]
  | cons c cs =>
      unfold pySplit
      by_cases h : c = sep
      · simp [h]
      · simp only [h, if_false]
        cases pySplit sep cs <;> simp

lemma pySplit_headI (sep : Char) (l : List Char) :
    (pySplit sep l).headI = l.takeWhile (fun c => c ≠ sep) := by
  induction l with
  | nil => simp [pySplit]
  | cons c cs ih =>
      unfold pySplit
      by_cases h : c = sep
      · simp [h, List.takeWhile]
      · simp only [h, if_false]
        cases hs : pySplit sep cs with
        | nil => exact absurd hs (pySplit_ne_nil sep cs)
        | cons p ps =>
            rw [hs] at ih
            simp only [List.headI] at ih
            show c :: p = _
            rw [List.takeWhile_cons_of_pos (by simp [h]), ih]

lemma takeWhile_ne_of_not_mem {c : Char} (l : List Char) (h : c ∉ l) :
    l.takeWhile (fun x => x ≠ c) = l := by
  induction l with
  | nil => rfl
  | cons x xs ih =>
      have hx : x ≠ c := fun hxc => h (hxc ▸ List.mem_cons_self x xs)
      have hxs : c ∉ xs := fun hc => h (List.mem_cons_of_mem x hc)
      rw [List.takeWhile_cons_of_pos (by simp [hx]), ih hxs]

/-- C9 (confirmed): each stored variable name is the entry's display
name truncated at the first comma (the prefix of characters before the
first `','`); `"Discharge, cubic feet per second"` is stored as
`"Discharge"`, and a display name containing no comma is stored
unchanged. -/
theorem C9_variable_name_truncated_at_comma :
    (∀ st row, extractRow st = some row →
        row.var = String.mk
          (st.«variable».variableName.data.takeWhile (fun c => c ≠ ',')))
    ∧ varFirst "Discharge, cubic feet per second" = "Discharge"
    ∧ ∀ s : String, ',' ∉ s.data → varFirst s = s := by
  refine ⟨?_, by decide, ?_⟩
  · intro st row h
    obtain ⟨vb, r, sc, sp, vc, val, _, _, _, _, _, _, hrow⟩ := extractRow_inv st row h
    rw [hrow]
    show varFirst st.«variable».variableName = _
    rw [varFirst, pySplit_headI]
  · intro s hs
    rw [varFirst, pySplit_headI, takeWhile_ne_of_not_mem s.data hs]

/-- Witness for C9: the synthetic station's `"Discharge, cubic feet
per second"`, and the comma-free name `"Gage height"`. -/
theorem C9_variable_name_truncated_at_comma_witness :
    (extractRow sampleStation = some sampleRow
      ∧ sampleRow.var = String.mk
          (sampleStation.«variable».variableName.data.takeWhile (fun c => c ≠ ',')))
    ∧ (',' ∉ "Gage height".data ∧ varFirst "Gage height" = "Gage height") :=
  ⟨⟨by decide,
      C9_variable_name_truncated_at_comma.1 sampleStation sampleRow (by decide)⟩,
    ⟨by decide,
      C9_variable_name_truncated_at_comma.2.2 "Gage height" (by decide)⟩⟩

/-- C5 (counterexample): with `spreadsheet_title=''` and a non-empty
`email_address`, both selectors are supplied and yet no precondition
error is raised — the call goes through (on the create-and-share path,
header included), because the neither-check tests `is None` while the
both-check tests truthiness and the empty string is falsy. -/
theorem C5_counterexample :
    gsheets_write "creds.json" sampleFrame (some "") (some "someone@example.com")
      = Except.ok
          { target := SheetTarget.createShare (some "someone@example.com")
            written := sampleFrame.columns :: sampleFrame.rows } := by
  rfl

/-- C5 (amended): `gsheets_write` raises the invalid-argument error
exactly when both selectors are `None`, or both are truthy (non-`None`
and non-empty); in every other case — in particular whenever exactly
one selector is supplied, but also when an empty-string selector is
supplied alongside the other — the precondition check passes (and the
error, when raised, precedes any credential loading or network call:
in the embedding an `error` result carries no write outcome at all). -/
theorem C5_precondition_exactly_one (credentials : String) (data : Frame)
    (t e : Option String) :
    (∃ msg, gsheets_write credentials data t e = .error msg)
      ↔ ((t = none ∧ e = none) ∨ (pyTruthy t = true ∧ pyTruthy e = true)) := by
  unfold gsheets_write
  by_cases h1 : t = none ∧ e = none
  · simp [h1]
  · rw [if_neg h1]
    by_cases h2 : pyTruthy t = true ∧ pyTruthy e = true
    · simp [h1, h2]
    · rw [if_neg (by simpa using h2)]
      simp [h1, h2]

/-- C6 (counterexample): a call with `email_address=''` (supplied) and
no title succeeds on the create-and-share path but writes the
dataset's rows without any header line, so create mode does not always
insert a header row. -/
theorem C6_counterexample :
    gsheets_write "creds.json" sampleFrame none (some "")
      = Except.ok
          { target := SheetTarget.createShare (some "")
            written := sampleFrame.rows }
    ∧ sampleFrame.rows ≠ sampleFrame.columns :: sampleFrame.rows := by
  constructor
  · rfl
  · decide

/-- C6 (amended): when the supplied selector is a non-empty string,
append mode (title supplied, no address) writes exactly the dataset's
rows with no header, and create mode (address supplied, no title)
writes the column names as the first line followed by the rows; a
supplied empty-string address instead follows the create path without
a header. -/
theorem C6_header_only_in_create_mode (credentials : String) (data : Frame) :
    (∀ t : String, t ≠ "" →
        gsheets_write credentials data (some t) none
          = .ok { target := SheetTarget.openExisting t, written := data.rows })
    ∧ (∀ e : String, e ≠ "" →
        gsheets_write credentials data none (some e)
          = .ok { target := SheetTarget.createShare (some e)
                  written := data.columns :: data.rows }) := by
  constructor
  · intro t ht
    unfold gsheets_write
    rw [if_neg (by simp)]
    rw [if_neg (by simp [pyTruthy])]
    simp [pyTruthy, ht]
  · intro e he
    unfold gsheets_write
    rw [if_neg (by simp)]
    rw [if_neg (by simp [pyTruthy])]
    simp [pyTruthy, he]

/-- Witness for C6: a concrete append-mode call and a concrete
create-mode call. -/
theorem C6_header_only_in_create_mode_witness :
    ("nwis sheet" ≠ ""
      ∧ gsheets_write "creds.json" sampleFrame (some "nwis sheet") none
          = .ok { target := SheetTarget.openExisting "nwis sheet"
                  written := sampleFrame.rows })
    ∧ ("someone@example.com" ≠ ""
      ∧ gsheets_write "creds.json" sampleFrame none (some "someone@example.com")
          = .ok { target := SheetTarget.createShare (some "someone@example.com")
                  written := sampleFrame.columns :: sampleFrame.rows }) :=
  ⟨⟨by decide,
      (C6_header_only_in_create_mode "creds.json" sampleFrame).1 "nwis sheet"
        (by decide)⟩,
    ⟨by decide,
      (C6_header_only_in_create_mode "creds.json" sampleFrame).2 "someone@example.com"
        (by decide)⟩⟩

/-- C10 (confirmed): the two selector checks disagree on what counts
as supplied — with `spreadsheet_title=''` and a non-empty
`email_address`, neither precondition error fires and the call
proceeds in create-and-share mode (sharing with the address, header
row inserted), not in append mode. -/
theorem C10_empty_title_skips_checks_and_creates (credentials : String)
    (data : Frame) (e : String) (he : e ≠ "") :
    gsheets_write credentials data (some "") (some e)
      = .ok { target := SheetTarget.createShare (some e)
              written := data.columns :: data.rows } := by
  unfold gsheets_write
  rw [if_neg (by simp)]
  rw [if_neg (by simp [pyTruthy])]
  simp [pyTruthy, he]

/-- Witness for C10: the counterexample input of the claim. -/
theorem C10_empty_title_skips_checks_and_creates_witness :
    ("someone@example.com" ≠ "")
    ∧ gsheets_write "creds.json" sampleFrame (some "") (some "someone@example.com")
        = .ok { target := SheetTarget.createShare (some "someone@example.com")
                written := sampleFrame.columns :: sampleFrame.rows } :=
  ⟨by decide,
    C10_empty_title_skips_checks_and_creates "creds.json" sampleFrame
      "someone@example.com" (by decide)⟩

end Nwis
